import Mathlib

/-!
Shallow embedding of `src/source/internal/core.cpp` (libkeen's delivery core).

The embedding models the state a `Core` instance mutates: the retry store
(`mCacheRef`), the in-flight task registry (`mTaskVec`), and the queue of
handlers posted to the io service but not yet executed by a worker.  The
network sender (`Curl::sendEvent`) is a function parameter.  The retry
store's implementation (`internal/cache.hpp`) is declared but not present
under src/, so its push/pop/remove operations are modelled from the spec's
RetryStore contract.  The singleton lifecycle (`Core::instance`) and the
reference-count query (`Core::useCount`) are modelled separately as a small
state machine over the set of live instances.
-/

namespace Libkeen

/-- A retry-store entry: an (address, payload) pair of strings. -/
abbrev Entry := String × String

/-- Modelled from the spec: RetryStore push (the implementation behind
`internal/cache.hpp` is not under src/): append one failed
(address, payload) pair to the store. -/
def Cache.push (c : List Entry) (e : Entry) : List Entry := c ++ [e]

/-- Modelled from the spec: RetryStore pop removes up to `count` entries from
the store and hands them back (arbitrary selection; here the oldest first).
Returns the popped entries and the remaining store. -/
def Cache.pop (c : List Entry) (count : Nat) : List Entry × List Entry :=
  (c.take count, c.drop count)

/-- Modelled from the spec: RetryStore remove deletes one matching
(address, payload) entry if present. -/
def Cache.remove (c : List Entry) (e : Entry) : List Entry := c.erase e

/-- A network sender: delivers one (address, payload) pair and reports
success.  Models `Curl::sendEvent`. -/
abbrev Send := String → String → Bool

/-- The list of pieces accumulated in a `std::stringstream` by `operator<<`. -/
abbrev SStream := List String

/-- Model of `ss << piece`. -/
def SStream.put (ss : SStream) (piece : String) : SStream := ss ++ [piece]

/-- Model of `ss.str()`: the concatenation of the accumulated pieces. -/
def SStream.str (ss : SStream) : String := String.join ss

/-- `Core::buildAddress` (core.cpp 47-57): stream the template pieces and the
three components into a stringstream and return the built string. -/
def Core.buildAddress (id key name : String) : String :=
  SStream.str
    (SStream.put
      (SStream.put
        (SStream.put
          (SStream.put
            (SStream.put
              (SStream.put [] "https://api.keen.io/3.0/projects/")
              id)
            "/events/")
          name)
        "?api_key=")
      key)

/-- A registered delivery task: the closure built at core.cpp 102-106, i.e.
its captured url and data, plus an identity `id` standing for the
`shared_ptr` identity that `std::find` compares in the erase step. -/
structure RTask where
  id : Nat
  url : String
  data : String
deriving DecidableEq

/-- A unit of work posted to the io service. -/
inductive Job where
  /-- The wrapper posted by postEvent (core.cpp 113-118): run the registered
  task, then erase it from the registry. -/
  | wrapped (t : RTask)
  /-- The replay task posted by postCache (core.cpp 133-150). -/
  | replay (count : Nat)
  /-- A fan-out resend sub-task posted from inside the replay task
  (core.cpp 144-148). -/
  | resend (e : Entry)
deriving DecidableEq

/-- The mutable state of a Core instance that the claims observe: the retry
store (`mCacheRef`), the in-flight registry (`mTaskVec`), the io-service
queue of posted but not yet executed handlers, and a counter supplying fresh
task identities. -/
structure CoreState where
  cache : List Entry
  taskVec : List RTask
  queue : List Job
  nextId : Nat
deriving DecidableEq

/-- The body of a postEvent delivery task (core.cpp 102-106): attempt the
send; on failure push the pair into the retry store. -/
def runDeliver (send : Send) (cache : List Entry) (t : RTask) : List Entry :=
  if send t.url t.data then cache else Cache.push cache (t.url, t.data)

/-- `Core::postEvent`, happy path (core.cpp 95-118): build the address,
construct the task, register it in `mTaskVec`, then post the wrapper to the
io service. -/
def Core.postEvent (s : CoreState) (projectId writeKey name data : String) : CoreState :=
  let url := Core.buildAddress projectId writeKey name
  let t : RTask := ⟨s.nextId, url, data⟩
  { s with
    taskVec := s.taskVec ++ [t]
    queue := s.queue ++ [Job.wrapped t]
    nextId := s.nextId + 1 }

/-- `Core::postCache`, happy path (core.cpp 127-150): post a single replay
task capturing `count`. -/
def Core.postCache (s : CoreState) (count : Nat) : CoreState :=
  { s with queue := s.queue ++ [Job.replay count] }

/-- Execute one posted handler against the state.  A postEvent wrapper runs
the task body and then erases the task from the registry (core.cpp 113-118);
the replay task pops up to `count` entries and posts one resend sub-task per
entry (core.cpp 133-150); a resend sub-task sends and removes the pair from
the store only on success (core.cpp 144-148). -/
def runJob (send : Send) (s : CoreState) : Job → CoreState
  | .wrapped t =>
    { s with
      cache := runDeliver send s.cache t
      taskVec := s.taskVec.erase t }
  | .replay count =>
    let popped := Cache.pop s.cache count
    { s with
      cache := popped.2
      queue := s.queue ++ popped.1.map Job.resend }
  | .resend e =>
    if send e.1 e.2 then { s with cache := Cache.remove s.cache e } else s

/-- Run the oldest pending handler, if any. -/
def step (send : Send) (s : CoreState) : CoreState :=
  match s.queue with
  | [] => s
  | j :: rest => runJob send { s with queue := rest } j

/-- Run `n` scheduling steps. -/
def stepN (send : Send) : Nat → CoreState → CoreState
  | 0, s => s
  | n + 1, s => stepN send n (step send s)

/-- `Core::flush`, effect on registry and store (core.cpp 159-203): after
stopping and joining the pool it synchronously runs every registered task in
order (174-175) and clears the registry (182), then resets the io service
and spawns a fresh pool. -/
def Core.flush (send : Send) (s : CoreState) : CoreState :=
  { s with
    cache := s.taskVec.foldl (runDeliver send) s.cache
    taskVec := [] }

/-- `Core::~Core` (core.cpp 68-93): stop the io service and join the pool.
Posted but not yet running handlers are discarded with the io service and no
registered task is executed, so neither the retry store nor the registry is
touched. -/
def Core.dtor (s : CoreState) : CoreState := { s with queue := [] }

/-- Which stages of a guarded public call throw: each field is the exception
text raised at that stage, or none.  Models arbitrary collaborator behaviour
while building, registering and submitting. -/
structure ThrowEnv where
  buildExn : Option String
  registerExn : Option String
  submitExn : Option String

/-- The body of `Core::postEvent`'s try block (core.cpp 97-119) under a throw
environment: each stage either raises (returned in the second component) or
performs its mutation, so a throw after registration leaves the task
registered but unsubmitted. -/
def Core.postEventBody (env : ThrowEnv) (s : CoreState)
    (projectId writeKey name data : String) : CoreState × Option String :=
  match env.buildExn with
  | some e => (s, some e)
  | none =>
    let url := Core.buildAddress projectId writeKey name
    let t : RTask := ⟨s.nextId, url, data⟩
    match env.registerExn with
    | some e => (s, some e)
    | none =>
      let s1 := { s with taskVec := s.taskVec ++ [t] }
      match env.submitExn with
      | some e => (s1, some e)
      | none =>
        ({ s1 with queue := s1.queue ++ [Job.wrapped t], nextId := s.nextId + 1 }, none)

/-- `Core::postEvent` with its catch clauses (core.cpp 120-124): any
exception from the body is logged and swallowed, so nothing escapes. -/
def Core.postEventGuarded (env : ThrowEnv) (s : CoreState)
    (projectId writeKey name data : String) : CoreState × Option String :=
  let r := Core.postEventBody env s projectId writeKey name data
  (r.1, none)

/-- The body of `Core::postCache`'s try block (core.cpp 129-151): submitting
the replay task may throw. -/
def Core.postCacheBody (submitExn : Option String) (s : CoreState)
    (count : Nat) : CoreState × Option String :=
  match submitExn with
  | some e => (s, some e)
  | none => (Core.postCache s count, none)

/-- `Core::postCache` with its catch clauses (core.cpp 152-156): any
exception from the body is logged and swallowed. -/
def Core.postCacheGuarded (submitExn : Option String) (s : CoreState)
    (count : Nat) : CoreState × Option String :=
  let r := Core.postCacheBody submitExn s count
  (r.1, none)

/-- The destructor's try body (core.cpp 70-80): stopping the io service and
joining each thread, which may throw. -/
def Core.dtorBody (joinExn : Option String) (s : CoreState) : CoreState × Option String :=
  match joinExn with
  | some e => (s, some e)
  | none => (Core.dtor s, none)

/-- `Core::~Core` with its catch clauses (core.cpp 81-90): a teardown
exception is logged and the destructor returns normally. -/
def Core.dtorGuarded (joinExn : Option String) (s : CoreState) : CoreState × Option String :=
  let r := Core.dtorBody joinExn s
  (r.1, none)

/-- `Core::release` (core.cpp 42-45): destroying the instance runs the
destructor, whose catch clauses swallow any teardown exception; release
itself returns nothing. -/
def Core.releaseGuarded (joinExn : Option String) (s : CoreState) : CoreState × Option String :=
  Core.dtorGuarded joinExn s

/-- The drain loop of `Core::flush` (core.cpp 174-182) when leftover tasks
may throw: tasks run in order; the first exception propagates immediately
and the registry is not cleared.  `taskExn t` is the exception the task `t`
raises, if any. -/
def Core.flushTasks (taskExn : RTask → Option String) (send : Send) :
    List RTask → CoreState → CoreState × Option String
  | [], s => ({ s with taskVec := [] }, none)
  | t :: ts, s =>
    match taskExn t with
    | some e => (s, some e)
    | none => Core.flushTasks taskExn send ts { s with cache := runDeliver send s.cache t }

/-- `Core::flush` under a throw environment (core.cpp 159-203): flush
installs no handler, so an exception from a join (161-168) or from a
leftover task (174-175) propagates out of the drain. -/
def Core.flushBody (joinExn : Option String) (taskExn : RTask → Option String)
    (send : Send) (s : CoreState) : CoreState × Option String :=
  match joinExn with
  | some e => (s, some e)
  | none => Core.flushTasks taskExn send s.taskVec s

/-- Access modes for the process-wide singleton (`AccessType` in core.hpp). -/
inductive AccessType where
  | Current
  | Renew
  | Release
deriving DecidableEq

/-- The singleton cell guarded by the static mutex of `Core::instance`: the
ids of currently live Core instances (the static `core` reference holds at
most one) and a supply of fresh ids. -/
structure SingletonState where
  live : List Nat
  next : Nat
deriving DecidableEq

/-- `Core::instance(AccessType)` (core.cpp 11-32) under its mutex: Current
leaves the cell alone and returns the held handle or null; Release resets
the held reference, destroying the instance if present, and returns the now
null handle; Renew creates an instance iff none exists and returns the held
handle. -/
def Core.instanceOp (s : SingletonState) : AccessType → SingletonState × Option Nat
  | .Current => (s, s.live.head?)
  | .Release => ({ s with live := [] }, none)
  | .Renew =>
    match s.live.head? with
    | some i => (s, some i)
    | none => ({ live := [s.next], next := s.next + 1 }, some s.next)

/-- `Core::instance()` with no argument (core.cpp 34-40): query Current; if
the handle is null, Renew; otherwise query Current again and return that. -/
def Core.instanceDefault (s : SingletonState) : SingletonState × Option Nat :=
  match Core.instanceOp s .Current with
  | (s1, none) => Core.instanceOp s1 .Renew
  | (s1, some _) => Core.instanceOp s1 .Current

/-- Run a sequence of instance(mode) calls from a state. -/
def runOps (s : SingletonState) : List AccessType → SingletonState
  | [] => s
  | m :: ms => runOps (Core.instanceOp s m).1 ms

/-- The initial singleton state: no instance exists yet. -/
def initSingleton : SingletonState := ⟨[], 0⟩

/-- The `shared_ptr` use count observed inside `Core::useCount` when the
instance exists and `ext` external handles are live: the static `core`
reference, the `ext` external handles, and the transient copy returned by
`instance(Current)` on which `use_count()` is invoked. -/
def observedUseCount (ext : Nat) : Nat := 1 + ext + 1

/-- `Core::useCount` (core.cpp 205-210): 0 when no instance exists;
otherwise the observed use count minus one, discounting the transient
reference taken by the query itself.  The argument records the number of
live external handles, or none when no instance exists. -/
def Core.useCount : Option Nat → Nat
  | none => 0
  | some ext => observedUseCount ext - 1

/-- True of the handlers on the postCache replay path: the replay dispatcher
and its resend sub-tasks; false of postEvent delivery wrappers. -/
def Job.replayPath : Job → Bool
  | .wrapped _ => false
  | .replay _ => true
  | .resend _ => true

/-- C7: for every project id, write key and event name, buildAddress
deterministically returns the straight string concatenation of the template
pieces with the three components interleaved, performing no URL-encoding of
any component. -/
theorem C7_buildAddress_is_concatenation (id key name : String) :
    Core.buildAddress id key name =
      "https://api.keen.io/3.0/projects/" ++ id ++ "/events/" ++ name ++ "?api_key=" ++ key := by
  simp [Core.buildAddress, SStream.put, SStream.str, String.join, List.foldl,
    String.empty_append, String.append_assoc]

/-- C5: for every throw environment, state and arguments, the guarded
postEvent, postCache and release calls let no exception escape: the escaping
exception component of each result is always none, and each returns only the
successor state. -/
theorem C5_no_exception_escapes (env : ThrowEnv) (cacheExn joinExn : Option String)
    (s : CoreState) (projectId writeKey name data : String) (count : Nat) :
    (Core.postEventGuarded env s projectId writeKey name data).2 = none
    ∧ (Core.postCacheGuarded cacheExn s count).2 = none
    ∧ (Core.releaseGuarded joinExn s).2 = none :=
  ⟨rfl, rfl, rfl⟩

/-- C8 counterexample: with an instance live and zero external holders of
the handle, useCount returns 1 rather than the claimed 0: the subtraction
discounts only the transient query reference, not the singleton's own
internal reference. -/
theorem C8_counterexample : Core.useCount (some 0) ≠ 0 := by decide

/-- C8 amended: useCount returns 0 whenever no Instance exists, and when an
Instance exists it returns the number of live external holders plus one,
because the observed use count includes the singleton's internal reference
and only the transient query reference is subtracted. -/
theorem C8_useCount_amended (ext : Nat) :
    Core.useCount none = 0 ∧ Core.useCount (some ext) = ext + 1 := by
  refine ⟨rfl, ?_⟩
  simp [Core.useCount, observedUseCount]
  omega

/-- C3 counterexample: postCache hands the replay task to the scheduler's
post without registering it: from the empty state the queue grows by the
replay job while the registry stays empty, so a submitted, unfinished unit
of work is absent from the registry. -/
theorem C3_counterexample :
    (Core.postCache ⟨[], [], [], 0⟩ 1).queue = [Job.replay 1]
    ∧ (Core.postCache ⟨[], [], [], 0⟩ 1).taskVec = [] :=
  ⟨rfl, rfl⟩

/-- C3 amended: only postEvent's delivery tasks obey the registry
discipline: postEvent appends the task to the registry and submits its
wrapper, and the wrapper erases the task after the body runs regardless of
the send outcome; the postCache replay task and the fan-out resend sub-tasks
are submitted without ever being registered and never modify the registry. -/
theorem C3_registry_discipline_amended (send : Send) (s : CoreState)
    (projectId writeKey name data : String) (count : Nat) (e : Entry) (t : RTask) :
    (Core.postEvent s projectId writeKey name data).taskVec
      = s.taskVec ++ [⟨s.nextId, Core.buildAddress projectId writeKey name, data⟩]
    ∧ (Core.postEvent s projectId writeKey name data).queue
      = s.queue ++ [Job.wrapped ⟨s.nextId, Core.buildAddress projectId writeKey name, data⟩]
    ∧ (runJob send s (Job.wrapped t)).taskVec = s.taskVec.erase t
    ∧ (Core.postCache s count).taskVec = s.taskVec
    ∧ (runJob send s (Job.replay count)).taskVec = s.taskVec
    ∧ (runJob send s (Job.resend e)).taskVec = s.taskVec := by
  refine ⟨rfl, rfl, rfl, rfl, rfl, ?_⟩
  simp only [runJob]
  split <;> rfl

/-- C1: the failing input evaluated: the store holds one entry, the sender
always fails; postCache(1) pops the entry destructively, the resend sub-task
fails and does not re-push, so after the replay task and its sub-task run
the store is empty and a later postCache pops nothing: the entry is no
longer retrievable, although it was never successfully resent. -/
theorem C1_failed_resend_drops_entry :
    (stepN (fun _ _ => false) 2 (Core.postCache ⟨[("u", "d")], [], [], 0⟩ 1)).cache = []
    ∧ (Cache.pop (stepN (fun _ _ => false) 2 (Core.postCache ⟨[("u", "d")], [], [], 0⟩ 1)).cache 5).1
      = [] := by
  refine ⟨?_, ?_⟩ <;> rfl

/-- C2 counterexample: with one registered task pending, release's teardown
(the destructor) neither produces the task's retry-store push nor clears the
registry, while actually running that task under a failing sender would have
pushed its pair: release does not execute registered tasks. -/
theorem C2_counterexample :
    (Core.dtor ⟨[], [⟨0, "u", "d"⟩], [Job.wrapped ⟨0, "u", "d"⟩], 1⟩).cache = []
    ∧ runDeliver (fun _ _ => false) [] ⟨0, "u", "d"⟩ = [("u", "d")]
    ∧ (Core.dtor ⟨[], [⟨0, "u", "d"⟩], [Job.wrapped ⟨0, "u", "d"⟩], 1⟩).taskVec ≠ [] := by
  refine ⟨rfl, rfl, by decide⟩

/-- C2 amended: release's teardown (the destructor) joins the workers but
executes no registered task and leaves the retry store and the registry
untouched; the synchronous drain that runs every registered task in order
and clears the registry is performed by flush, which the code invokes only
from the constructor.  In particular, when every send fails, flush appends
exactly the registered tasks' pairs to the store. -/
theorem C2_drain_is_flush_not_release (send : Send) (s : CoreState) :
    (Core.dtor s).cache = s.cache
    ∧ (Core.dtor s).taskVec = s.taskVec
    ∧ (Core.flush send s).taskVec = []
    ∧ (Core.flush send s).cache = s.taskVec.foldl (runDeliver send) s.cache
    ∧ ((∀ a d, send a d = false) →
        (Core.flush send s).cache = s.cache ++ s.taskVec.map (fun t => (t.url, t.data))) := by
  refine ⟨rfl, rfl, rfl, rfl, fun hfail => ?_⟩
  show s.taskVec.foldl (runDeliver send) s.cache
      = s.cache ++ s.taskVec.map (fun t => (t.url, t.data))
  generalize s.taskVec = ts
  generalize s.cache = c
  induction ts generalizing c with
  | nil => simp
  | cons t ts ih =>
    simp [runDeliver, hfail, Cache.push, ih, List.append_assoc]

/-- Witness for C2 at a concrete input: a one-task registry under an
always-failing sender; flush appends exactly that task's pair. -/
theorem C2_drain_witness :
    (∀ a d : String, (fun _ _ => false : Send) a d = false)
    ∧ (Core.flush (fun _ _ => false) ⟨[], [⟨0, "u", "d"⟩], [], 1⟩).cache
      = ([] : List Entry) ++ [(⟨0, "u", "d"⟩ : RTask)].map (fun t => (t.url, t.data)) :=
  ⟨fun _ _ => rfl,
   (C2_drain_is_flush_not_release (fun _ _ => false) ⟨[], [⟨0, "u", "d"⟩], [], 1⟩).2.2.2.2
     (fun _ _ => rfl)⟩

/-- C6 counterexample: with one leftover registered task that raises, the
drain performed by flush propagates the exception instead of catching it,
contradicting the claim for the drain path. -/
theorem C6_counterexample :
    (Core.flushBody none (fun _ => some "boom") (fun _ _ => true)
      ⟨[], [⟨0, "u", "d"⟩], [], 1⟩).2 = some "boom" := rfl

/-- C6 amended: the destructor's catch clauses swallow any exception raised
while stopping or joining, so destruction propagates nothing; flush installs
no handler, so an exception raised by a join or by the first leftover
registered task propagates out of the drain. -/
theorem C6_teardown_amended (s : CoreState) (e : String) (t : RTask)
    (taskExn : RTask → Option String) (send : Send) (joinExn : Option String)
    (hthrow : taskExn t = some e) (hvec : s.taskVec = t :: s.taskVec.tail) :
    (Core.dtorGuarded joinExn s).2 = none
    ∧ (Core.flushBody (some e) taskExn send s).2 = some e
    ∧ (Core.flushBody none taskExn send s).2 = some e := by
  refine ⟨rfl, rfl, ?_⟩
  simp only [Core.flushBody]
  rw [hvec]
  simp [Core.flushTasks, hthrow]

/-- Witness for C6 amended at a concrete input: a single registered task
that always raises. -/
theorem C6_teardown_witness :
    ((fun _ => some "boom" : RTask → Option String) ⟨0, "u", "d"⟩ = some "boom")
    ∧ ((⟨[], [⟨0, "u", "d"⟩], [], 1⟩ : CoreState).taskVec
      = ⟨0, "u", "d"⟩ :: (⟨[], [⟨0, "u", "d"⟩], [], 1⟩ : CoreState).taskVec.tail)
    ∧ ((Core.dtorGuarded none ⟨[], [⟨0, "u", "d"⟩], [], 1⟩).2 = none
      ∧ (Core.flushBody (some "boom") (fun _ => some "boom") (fun _ _ => true)
          ⟨[], [⟨0, "u", "d"⟩], [], 1⟩).2 = some "boom"
      ∧ (Core.flushBody none (fun _ => some "boom") (fun _ _ => true)
          ⟨[], [⟨0, "u", "d"⟩], [], 1⟩).2 = some "boom") :=
  ⟨rfl, rfl,
   C6_teardown_amended ⟨[], [⟨0, "u", "d"⟩], [], 1⟩ "boom" ⟨0, "u", "d"⟩
     (fun _ => some "boom") (fun _ _ => true) none rfl rfl⟩

/-- C4: when every send fails, postEvent followed by the run of its
submitted task leaves exactly one retry entry whose address is the built
address and whose payload is the original payload (starting from a state
whose queue is idle and whose store does not yet hold that pair), and the
guarded postEvent call itself propagates nothing. -/
theorem C4_postEvent_always_fail (send : Send) (s : CoreState)
    (projectId writeKey name data : String)
    (hsend : ∀ a d, send a d = false)
    (hq : s.queue = [])
    (hfresh : s.cache.count (Core.buildAddress projectId writeKey name, data) = 0) :
    (step send (Core.postEvent s projectId writeKey name data)).cache.count
      (Core.buildAddress projectId writeKey name, data) = 1
    ∧ (∀ env, (Core.postEventGuarded env s projectId writeKey name data).2 = none) := by
  refine ⟨?_, fun env => rfl⟩
  simp [Core.postEvent, step, hq, runJob, runDeliver, hsend, Cache.push,
    List.count_append, hfresh]

/-- Witness for C4 at the spec's end-to-end input: project p1, key k1,
event purchase, an always-failing sender, and an empty initial state. -/
theorem C4_postEvent_witness :
    (∀ a d : String, (fun _ _ => false : Send) a d = false)
    ∧ ((⟨[], [], [], 0⟩ : CoreState).queue = [])
    ∧ ((⟨[], [], [], 0⟩ : CoreState).cache.count
        (Core.buildAddress "p1" "k1" "purchase", "d") = 0)
    ∧ ((step (fun _ _ => false) (Core.postEvent ⟨[], [], [], 0⟩ "p1" "k1" "purchase" "d")).cache.count
        (Core.buildAddress "p1" "k1" "purchase", "d") = 1
      ∧ (∀ env, (Core.postEventGuarded env ⟨[], [], [], 0⟩ "p1" "k1" "purchase" "d").2 = none)) :=
  ⟨fun _ _ => rfl, rfl, rfl,
   C4_postEvent_always_fail (fun _ _ => false) ⟨[], [], [], 0⟩ "p1" "k1" "purchase" "d"
     (fun _ _ => rfl) rfl rfl⟩

/-- Running a replay-path handler never increases the multiplicity of any
pair in the retry store: the replay dispatcher only pops, and a resend
sub-task at most removes. -/
theorem runJob_replayPath_cache_count (send : Send) (s : CoreState) (j : Job)
    (hj : j.replayPath = true) (p : Entry) :
    (runJob send s j).cache.count p ≤ s.cache.count p := by
  cases j with
  | wrapped t => simp [Job.replayPath] at hj
  | replay count =>
    simpa [runJob, Cache.pop] using (List.drop_sublist count s.cache).count_le p
  | resend e =>
    cases hse : send e.1 e.2 with
    | false => simp [runJob, hse]
    | true => simpa [runJob, hse, Cache.remove] using (List.erase_sublist e s.cache).count_le p

/-- Running a replay-path handler only ever enqueues replay-path handlers. -/
theorem runJob_replayPath_queue (send : Send) (s : CoreState) (j : Job)
    (hs : ∀ k ∈ s.queue, k.replayPath = true) (hj : j.replayPath = true) :
    ∀ k ∈ (runJob send s j).queue, k.replayPath = true := by
  cases j with
  | wrapped t => simpa [runJob] using hs
  | replay count =>
    intro k hk
    simp [runJob] at hk
    rcases hk with hk | ⟨a, b, hmem, rfl⟩
    · exact hs k hk
    · rfl
  | resend e =>
    cases hse : send e.1 e.2 with
    | false => simpa [runJob, hse] using hs
    | true => simpa [runJob, hse] using hs

/-- One scheduling step over a replay-path queue keeps every store
multiplicity from growing and keeps the queue on the replay path. -/
theorem step_replayPath (send : Send) (s : CoreState)
    (hs : ∀ k ∈ s.queue, k.replayPath = true) (p : Entry) :
    (step send s).cache.count p ≤ s.cache.count p
    ∧ ∀ k ∈ (step send s).queue, k.replayPath = true := by
  cases hq : s.queue with
  | nil =>
    constructor
    · simp [step, hq]
    · simp only [step, hq]
      rw [← hq]
      exact hs
  | cons j rest =>
    have hj : j.replayPath = true := hs j (by rw [hq]; exact List.mem_cons_self j rest)
    have hrest : ∀ k ∈ ({ s with queue := rest } : CoreState).queue, k.replayPath = true := by
      intro k hk
      exact hs k (by rw [hq]; exact List.mem_cons_of_mem j hk)
    constructor
    · simpa [step, hq] using
        runJob_replayPath_cache_count send { s with queue := rest } j hj p
    · simpa [step, hq] using
        runJob_replayPath_queue send { s with queue := rest } j hrest hj

/-- C10: starting from a state whose pending handlers are all on the replay
path (the replay dispatcher and its resend sub-tasks), any number of
scheduling steps never increases the multiplicity of any (address, payload)
pair in the retry store: the replay path only pops and removes, never
pushes. -/
theorem C10_replay_never_pushes (send : Send) (s : CoreState)
    (hq : ∀ j ∈ s.queue, j.replayPath = true) (n : Nat) (p : Entry) :
    (stepN send n s).cache.count p ≤ s.cache.count p := by
  induction n generalizing s with
  | zero => exact le_refl _
  | succ n ih =>
    have h := step_replayPath send s hq p
    exact le_trans (ih (step send s) h.2) h.1

/-- Witness for C10 at a concrete input: a queued postCache(1) replay over a
one-entry store under an always-succeeding sender. -/
theorem C10_replay_witness :
    (∀ j ∈ [Job.replay 1], j.replayPath = true)
    ∧ (stepN (fun _ _ => true) 2 ⟨[("a", "b")], [], [Job.replay 1], 0⟩).cache.count ("a", "b")
      ≤ (⟨[("a", "b")], [], [Job.replay 1], 0⟩ : CoreState).cache.count ("a", "b") :=
  ⟨by decide,
   C10_replay_never_pushes (fun _ _ => true) ⟨[("a", "b")], [], [Job.replay 1], 0⟩
     (by decide) 2 ("a", "b")⟩

/-- Each instance(mode) call preserves the bound of at most one live
instance. -/
theorem instanceOp_live_length (s : SingletonState) (m : AccessType)
    (h : s.live.length ≤ 1) : (Core.instanceOp s m).1.live.length ≤ 1 := by
  cases m with
  | Current => exact h
  | Release => simp [Core.instanceOp]
  | Renew =>
    cases hl : s.live.head? with
    | some i => simpa [Core.instanceOp, hl] using h
    | none => simp [Core.instanceOp, hl]

/-- Any sequence of instance(mode) calls preserves the bound of at most one
live instance. -/
theorem runOps_live_length (ops : List AccessType) (s : SingletonState)
    (h : s.live.length ≤ 1) : (runOps s ops).live.length ≤ 1 := by
  induction ops generalizing s with
  | nil => exact h
  | cons m ms ih => exact ih _ (instanceOp_live_length s m h)

/-- C9: Current performs no mutation and returns the existing handle or
none; Renew creates an instance iff none exists and otherwise returns the
state unchanged with the existing handle; Release destroys any existing
instance; the no-mode call behaves as Current-else-Renew; and every
sequence of calls from the initial state keeps at most one live instance. -/
theorem C9_singleton_modes (s : SingletonState) (ops : List AccessType) :
    (Core.instanceOp s .Current = (s, s.live.head?))
    ∧ (s.live.head? = none → (Core.instanceOp s .Renew).1.live = [s.next])
    ∧ (∀ i, s.live.head? = some i → Core.instanceOp s .Renew = (s, some i))
    ∧ ((Core.instanceOp s .Release).1.live = [])
    ∧ (Core.instanceDefault s
        = match s.live.head? with
          | none => Core.instanceOp s .Renew
          | some _ => Core.instanceOp s .Current)
    ∧ ((runOps initSingleton ops).live.length ≤ 1) := by
  refine ⟨rfl, ?_, ?_, rfl, ?_, ?_⟩
  · intro h
    simp [Core.instanceOp, h]
  · intro i h
    simp [Core.instanceOp, h]
  · cases h : s.live.head? <;> simp [Core.instanceDefault, Core.instanceOp, h]
  · exact runOps_live_length ops initSingleton (by simp [initSingleton])

/-- Witness for C9 at concrete inputs: an empty cell where Renew creates,
a populated cell where Renew is a no-op, and a concrete call sequence kept
to at most one live instance. -/
theorem C9_singleton_witness :
    ((⟨[], 0⟩ : SingletonState).live.head? = none)
    ∧ (Core.instanceOp ⟨[], 0⟩ .Renew).1.live = [(⟨[], 0⟩ : SingletonState).next]
    ∧ ((⟨[5], 6⟩ : SingletonState).live.head? = some 5)
    ∧ (Core.instanceOp ⟨[5], 6⟩ .Renew = (⟨[5], 6⟩, some 5))
    ∧ ((runOps initSingleton [.Renew, .Current, .Renew, .Release, .Renew]).live.length ≤ 1) :=
  ⟨rfl,
   (C9_singleton_modes ⟨[], 0⟩ []).2.1 rfl,
   rfl,
   (C9_singleton_modes ⟨[5], 6⟩ []).2.2.1 5 rfl,
   (C9_singleton_modes ⟨[], 0⟩ [.Renew, .Current, .Renew, .Release, .Renew]).2.2.2.2.2⟩

end Libkeen
